import Mathlib

/-
Verification of ichiban/httpproxyfailover (proxy.go, current version: the
templates-enabled library) against its natural-language specification.

Shallow embedding conventions:
* Go byte strings are modelled as Lean `String`s whose characters stand for
  bytes (codepoints below 256, ISO-8859-1 style); byte lists are `List Nat`.
* External collaborators (net.Dialer, http.ReadResponse, tls handshakes, the
  uritemplate library) are modelled as oracle values / abstract records; the
  decision logic of proxy.go itself is translated line by line.
-/

set_option autoImplicit false

namespace HPF

/-! ## Byte strings -/

/-- Go's `string(b)` for a byte slice: each byte becomes one character. -/
def bytesToChars (bs : List Nat) : List Char :=
  bs.map (fun b => Char.ofNat b)

/-- The bytes of a Go string (characters are bytes under our convention). -/
def stringBytes (s : String) : List Nat :=
  s.data.map (fun c => c.toNat)

/-! ## base64 (model of Go `encoding/base64` StdEncoding) -/

/-- The standard base64 alphabet. -/
def b64Alphabet : List Char :=
  "ABCDEFGHIJKLMNOPQRSTUVWXYZabcdefghijklmnopqrstuvwxyz0123456789+/".data

/-- Character for a 6-bit group. -/
def b64Char (n : Nat) : Char :=
  b64Alphabet.getD n 'A'

/-- Index of a character in the standard base64 alphabet, `none` if it is not
in the alphabet (models the decode map of `encoding/base64`). -/
def b64Index (c : Char) : Option Nat :=
  if 'A' ≤ c ∧ c ≤ 'Z' then some (c.toNat - 'A'.toNat)
  else if 'a' ≤ c ∧ c ≤ 'z' then some (c.toNat - 'a'.toNat + 26)
  else if '0' ≤ c ∧ c ≤ '9' then some (c.toNat - '0'.toNat + 52)
  else if c = '+' then some 62
  else if c = '/' then some 63
  else none

/-- Model of `base64.StdEncoding.EncodeToString` on bytes (< 256). -/
def base64EncodeBytes : List Nat → List Char
  | [] => []
  | [b0] =>
    [b64Char (b0 / 4), b64Char (b0 % 4 * 16), '=', '=']
  | [b0, b1] =>
    [b64Char (b0 / 4), b64Char (b0 % 4 * 16 + b1 / 16), b64Char (b1 % 16 * 4), '=']
  | b0 :: b1 :: b2 :: rest =>
    b64Char (b0 / 4) :: b64Char (b0 % 4 * 16 + b1 / 16) ::
    b64Char (b1 % 16 * 4 + b2 / 64) :: b64Char (b2 % 64) :: base64EncodeBytes rest

/-- `base64.StdEncoding.EncodeToString` as a Go string. -/
def base64Encode (bs : List Nat) : String :=
  String.mk (base64EncodeBytes bs)

/-- Decoder core of `base64.StdEncoding.DecodeString`: complete quanta of four
characters, padding `=` only at the end (`xx==` or `xxx=`), any other shape or
any character outside the alphabet is a decode error (`none`). -/
def base64DecodeQuanta : List Char → Option (List Nat)
  | [] => some []
  | c0 :: c1 :: c2 :: c3 :: rest =>
    match b64Index c0, b64Index c1 with
    | some i0, some i1 =>
      if c2 = '=' then
        if c3 = '=' ∧ rest = [] then some [i0 * 4 + i1 / 16] else none
      else
        match b64Index c2 with
        | some i2 =>
          if c3 = '=' then
            if rest = [] then some [i0 * 4 + i1 / 16, i1 % 16 * 16 + i2 / 4] else none
          else
            match b64Index c3 with
            | some i3 =>
              match base64DecodeQuanta rest with
              | some bs =>
                  some ((i0 * 4 + i1 / 16) :: (i1 % 16 * 16 + i2 / 4) :: (i2 % 4 * 64 + i3) :: bs)
              | none => none
            | none => none
        | none => none
    | _, _ => none
  | _ => none

/-- Model of `base64.StdEncoding.DecodeString` on the characters of a Go
string: carriage returns and newlines are skipped, then complete quanta are
decoded. -/
def base64DecodeChars (cs : List Char) : Option (List Nat) :=
  base64DecodeQuanta (cs.filter (fun c => !(c == '\n') && !(c == '\r')))

/-! ## ASCII case folding (model of `strings.EqualFold` on ASCII input) -/

/-- Lower-case an ASCII letter. -/
def asciiLower (c : Char) : Char :=
  if 'A' ≤ c ∧ c ≤ 'Z' then Char.ofNat (c.toNat + 32) else c

/-- Model of `strings.EqualFold` restricted to ASCII strings (the only use in
proxy.go compares against the ASCII literal "Basic "). -/
def asciiEqualFold (a b : List Char) : Bool :=
  a.length == b.length && (a.zip b).all (fun p => asciiLower p.1 == asciiLower p.2)

/-! ## Headers and requests -/

/-- Go `http.Header`: a map from (canonical) header name to the list of
values. Modelled as a function, matching Go map semantics (iteration order of
the copy loop in `backendReq` is irrelevant under this model). -/
def Header : Type := String → List String

/-- Model of `http.Header.Get`: first value, or the empty string. -/
def Header.get (h : Header) (k : String) : String :=
  match h k with
  | [] => ""
  | v :: _ => v

/-- Model of `http.Header.Set` (the key is used in canonical form,
"Proxy-Authorization" already is canonical). -/
def Header.set (h : Header) (k v : String) : Header :=
  fun k' => if k' = k then [v] else h k'

/-- The part of an inbound `*http.Request` the proxy reads: method, CONNECT
target (`r.Host`), headers, and the number of unread body bytes. -/
structure Request where
  method : String
  host : String
  header : Header
  bodyLen : Nat

/-! ## uritemplate values and credential extraction (`params`) -/

/-- Model of `uritemplate.Values` as used by proxy.go: a map from variable
name to its (single string) value; `none` means absent.  The `nil` map and the
empty map behave identically for the lookups performed here. -/
def Values : Type := String → Option String

/-- The always-empty variable map (both Go's `nil` map and the fresh
`uritemplate.Values` behave like this for lookups). -/
def valuesEmpty : Values := fun _ => none

/-- Model of `uritemplate.Values.Set` (a string value). -/
def Values.set (vs : Values) (k v : String) : Values :=
  fun k' => if k' = k then some v else vs k'

/-- The prefix `"Basic "` checked by `params`. -/
def basicPrefixChars : List Char := "Basic ".data

/-- Substring of a Go string before the first ':' (whole string when there is
none); models `ps = ps[:strings.IndexRune(ps, 58)]` in `params`. -/
def takeBeforeColonChars : List Char → List Char
  | [] => []
  | c :: rest => if c = ':' then [] else c :: takeBeforeColonChars rest

/-- Model of `strings.Split` with a one-character separator. -/
def splitOnChar (sep : Char) : List Char → List (List Char)
  | [] => [[]]
  | c :: rest =>
    if c = sep then [] :: splitOnChar sep rest
    else
      match splitOnChar sep rest with
      | [] => [[c]]
      | g :: gs => (c :: g) :: gs

/-- Model of `strings.SplitN(kv, "=", 2)` followed by the padding with "" when
no '=' is present: yields the key and the (possibly empty) value. -/
def splitKVChars : List Char → List Char × List Char
  | [] => ([], [])
  | c :: rest =>
    if c = '=' then ([], rest)
    else
      match splitKVChars rest with
      | (k, v) => (c :: k, v)

/-- The variable map built by the loop at the end of `params` from the decoded
credential bytes: text before the first ':', split on ',', each piece split on
the first '='. -/
def paramsValues (bs : List Nat) : Values :=
  ((splitOnChar ',' (takeBeforeColonChars (bytesToChars bs))).map splitKVChars).foldl
    (fun vs kv => Values.set vs (String.mk kv.1) (String.mk kv.2)) valuesEmpty

/-- Model of `params` (proxy.go): reads Proxy-Authorization; no header or no
"Basic " prefix yields the nil map (no error); malformed base64 is a hard
error; otherwise the key-value list before the first ':' becomes the map. -/
def params (r : Request) : Except Unit Values :=
  let auth := (Header.get r.header "Proxy-Authorization").data
  if auth.length < basicPrefixChars.length then .ok valuesEmpty
  else if asciiEqualFold (auth.take basicPrefixChars.length) basicPrefixChars then
    match base64DecodeChars (auth.drop basicPrefixChars.length) with
    | none => .error ()
    | some bs => .ok (paramsValues bs)
  else .ok valuesEmpty

/-! ## Backend templates and candidate resolution -/

/-- Model of `uritemplate.Template` (external library yosida95/uritemplate),
abstracted by exactly what proxy.go consumes: its list of variable names
(`Varnames`) and its expansion function (`Expand`, `none` modelling an
expansion error). -/
structure Template where
  varnames : List String
  expand : Values → Option String

/-- Model of `applicable` (proxy.go): every variable name of the template must
be present in the map (the value is never inspected). -/
def applicable (t : Template) (values : Values) : Bool :=
  t.varnames.all (fun n => (values n).isSome)

/-- The loop body of `applicableBackends` over the parsed templates:
inapplicable templates are skipped, expansion errors skip the single template,
successful expansions are appended in order. -/
def expandLoop (ts : List Template) (values : Values) : List String :=
  match ts with
  | [] => []
  | t :: rest =>
    if applicable t values then
      match t.expand values with
      | none => expandLoop rest values
      | some b => b :: expandLoop rest values
    else expandLoop rest values

/-- The configuration of a `Proxy` relevant to the control flow: the backend
list, the parsed templates (`none` unless `EnableTemplates` succeeded), and
whether a `TLSHandshake` config is set. -/
structure Proxy where
  backends : List String
  parsedBackends : Option (List Template)
  tlsHandshake : Bool

/-- Model of `Proxy.applicableBackends`: without templates the backend slice
is returned as is; with templates the credential map gates and expands each
template in order. -/
def applicableBackends (p : Proxy) (r : Request) : Except Unit (List String) :=
  match p.parsedBackends with
  | none => .ok p.backends
  | some ts =>
    match params r with
    | .error e => .error e
    | .ok values => .ok (expandLoop ts values)

/-! ## Backend trial (`inbound`, `checkTLSHandshake`, `connectOne`) -/

/-- Embedded credentials of a backend URL (`*url.Userinfo`). -/
structure Userinfo where
  username : String
  password : String
  passwordSet : Bool
deriving DecidableEq, Repr

/-- Should a byte be percent-escaped in the userinfo position?  Model of Go
`net/url.shouldEscape` with mode `encodeUserPassword`: unreserved characters
and the sub-delims other than '@', '/', '?', ':' stay literal. -/
def shouldEscapeUserPassword (c : Char) : Bool :=
  if ('a' ≤ c ∧ c ≤ 'z') ∨ ('A' ≤ c ∧ c ≤ 'Z') ∨ ('0' ≤ c ∧ c ≤ '9') then false
  else if c = '-' ∨ c = '_' ∨ c = '.' ∨ c = '~' then false
  else if c = '$' ∨ c = '&' ∨ c = '+' ∨ c = ',' ∨ c = ';' ∨ c = '=' then false
  else true

/-- Upper-case hexadecimal digit. -/
def hexDigitUpper (n : Nat) : Char :=
  ("0123456789ABCDEF".data).getD n '0'

/-- Percent-escape one byte. -/
def percentEscape (c : Char) : List Char :=
  ['%', hexDigitUpper (c.toNat / 16), hexDigitUpper (c.toNat % 16)]

/-- Model of `net/url.escape` with mode `encodeUserPassword` (byte-wise on our
byte-character strings). -/
def escapeUserPassword (s : String) : String :=
  String.mk (s.data.foldr
    (fun c acc => if shouldEscapeUserPassword c then percentEscape c ++ acc else c :: acc) [])

/-- Model of `url.Userinfo.String`: escaped username, then ":" and the escaped
password when a password is present. -/
def Userinfo.string (u : Userinfo) : String :=
  escapeUserPassword u.username ++
    (if u.passwordSet then ":" ++ escapeUserPassword u.password else "")

/-- A CONNECT response as proxy.go reads it (`*http.Response`): the numeric
status code and the status line text (`resp.Status`, possibly empty). -/
structure GoResp where
  statusCode : Nat
  status : String
deriving DecidableEq, Repr

/-- The per-candidate error classification of proxy.go (§7 of the spec):
descriptor parse, dial, write, response parse, non-2xx status (carrying code
and status text), and a failing TLS handshake check. -/
inductive Err where
  | urlParse
  | dial
  | write
  | readResponse
  | status (code : Nat) (text : String)
  | handshake
deriving DecidableEq, Repr

/-- Oracle for one run of `inbound` against one backend: the outcome of
`urlParse` (`none` = parse error, otherwise the embedded credentials), of
`DialContext`, of `req.Write`, and of `http.ReadResponse` (`none` = read or
parse error). -/
structure TrialEnv where
  parsed : Option (Option Userinfo)
  dialOk : Bool
  writeOk : Bool
  readResp : Option GoResp
deriving DecidableEq, Repr

/-- Model of `Proxy.inbound`: parse the backend descriptor, dial, write the
synthetic CONNECT, read the response, close its body, and reject any status
with `resp.StatusCode/100 != 2` with an `unsuccessfulStatusError` carrying the
exact code and status text. -/
def inboundResult (e : TrialEnv) : Except Err GoResp :=
  match e.parsed with
  | none => .error .urlParse
  | some _ =>
    if e.dialOk then
      if e.writeOk then
        match e.readResp with
        | none => .error .readResponse
        | some resp =>
          if resp.statusCode / 100 ≠ 2 then .error (.status resp.statusCode resp.status)
          else .ok resp
      else .error .write
    else .error .dial

/-- Outcome of the TLS client handshake in `checkTLSHandshake`:
success, a `tls.RecordHeaderError` (the target is not a TLS server), or any
other handshake error. -/
inductive HandshakeOutcome where
  | ok
  | recordHeaderError
  | otherError
deriving DecidableEq, Repr

/-- Oracle for one run of `checkTLSHandshake`: the auxiliary `inbound`
connection it opens, and the handshake outcome on it. -/
structure TLSEnv where
  aux : TrialEnv
  handshake : HandshakeOutcome
deriving DecidableEq, Repr

/-- Model of `Proxy.checkTLSHandshake`: a failing auxiliary `inbound` is the
check's error; a successful handshake passes; a `tls.RecordHeaderError` passes
(the comment in the source: it might not be a TLS server); any other handshake
error fails the check. -/
def checkTLSHandshake (e : TLSEnv) : Option Err :=
  match inboundResult e.aux with
  | .error err => some err
  | .ok _ =>
    match e.handshake with
    | .ok => none
    | .recordHeaderError => none
    | .otherError => some .handshake

/-- Oracle for one candidate: the primary `inbound` run and, if the TLS check
is configured, its auxiliary run. -/
structure CandidateEnv where
  trial : TrialEnv
  tls : TLSEnv
deriving DecidableEq, Repr

/-- Model of `Proxy.connectOne`: the primary `inbound` (which contains the 2xx
gate), then, only if it succeeded and `TLSHandshake` is configured, the TLS
handshake check. -/
def connectOne (p : Proxy) (e : CandidateEnv) : Except Err GoResp :=
  match inboundResult e.trial with
  | .error err => .error err
  | .ok resp =>
    if p.tlsHandshake then
      match checkTLSHandshake e.tls with
      | some err => .error err
      | none => .ok resp
    else .ok resp

/-! ## The trial loop (`connect`) and `ServeHTTP` -/

/-- What the client ends up receiving: the accepted backend's response written
to the hijacked connection followed by the tunnel, or an `http.Error` page
with the given status code. -/
inductive ClientResult where
  | tunneled (resp : GoResp)
  | httpError (code : Nat)
deriving DecidableEq, Repr

/-- Oracle for one `connect` run: the per-backend trial outcomes (deterministic
per backend string within one request), whether the ResponseWriter implements
`http.Hijacker`, and whether `Hijack()` succeeds. -/
structure ConnectEnv where
  trials : String → CandidateEnv
  hijackerOk : Bool
  hijackOk : Bool

/-- The loop of `Proxy.connect` over the resolved backends.  Returns the
sequence of `Callback` invocations (backend, error-or-nil), in order, paired
with what is sent to the client.  A failing candidate signals the callback and
continues; a successful one signals the callback with nil, then hijacks (a
failure there is a 502) and writes the accepted response; exhaustion is 503. -/
def connectLoop (p : Proxy) (env : ConnectEnv) : List String → List (String × Option Err) × ClientResult
  | [] => ([], .httpError 503)
  | b :: bs =>
    match connectOne p (env.trials b) with
    | .error e =>
      ((b, some e) :: (connectLoop p env bs).1, (connectLoop p env bs).2)
    | .ok resp =>
      if env.hijackerOk then
        if env.hijackOk then ([(b, none)], .tunneled resp)
        else ([(b, none)], .httpError 502)
      else ([(b, none)], .httpError 502)

/-- Model of `Proxy.connect`: resolve the applicable backends (a resolution
error is answered with 400 Bad Request and no trial), then run the loop. -/
def connect (p : Proxy) (r : Request) (env : ConnectEnv) : List (String × Option Err) × ClientResult :=
  match applicableBackends p r with
  | .error _ => ([], .httpError 400)
  | .ok bs => connectLoop p env bs

/-- Model of `Proxy.ServeHTTP` after the body close: CONNECT requests go to
`connect`, any other method is answered 405 with no trial. -/
def serveHTTP (p : Proxy) (r : Request) (env : ConnectEnv) : List (String × Option Err) × ClientResult :=
  if r.method = "CONNECT" then connect p r env else ([], .httpError 405)

/-- Events of one `ServeHTTP` run, for the body-handling invariant: a read of
the request body (draining), a close of the request body, a backend trial, and
the final answer to the client. -/
inductive Ev where
  | bodyRead
  | bodyClose
  | trial (b : String)
  | respond (res : ClientResult)
deriving DecidableEq, Repr

/-- The event trace of `Proxy.ServeHTTP`: the source closes `r.Body` first
(without reading it), then dispatches; each loop iteration of `connect` is one
trial event in callback order; the run ends answering the client. -/
def serveHTTPTrace (p : Proxy) (r : Request) (env : ConnectEnv) : List Ev :=
  Ev.bodyClose ::
    ((serveHTTP p r env).1.map (fun a => Ev.trial a.1) ++
      [Ev.respond (serveHTTP p r env).2])

/-! ## Status errors (`unsuccessfulStatusError`) -/

/-- Model of Go `net/http.StatusText`. -/
def statusText (code : Nat) : String :=
  match code with
  | 100 => "Continue"
  | 101 => "Switching Protocols"
  | 102 => "Processing"
  | 103 => "Early Hints"
  | 200 => "OK"
  | 201 => "Created"
  | 202 => "Accepted"
  | 203 => "Non-Authoritative Information"
  | 204 => "No Content"
  | 205 => "Reset Content"
  | 206 => "Partial Content"
  | 207 => "Multi-Status"
  | 208 => "Already Reported"
  | 226 => "IM Used"
  | 300 => "Multiple Choices"
  | 301 => "Moved Permanently"
  | 302 => "Found"
  | 303 => "See Other"
  | 304 => "Not Modified"
  | 305 => "Use Proxy"
  | 307 => "Temporary Redirect"
  | 308 => "Permanent Redirect"
  | 400 => "Bad Request"
  | 401 => "Unauthorized"
  | 402 => "Payment Required"
  | 403 => "Forbidden"
  | 404 => "Not Found"
  | 405 => "Method Not Allowed"
  | 406 => "Not Acceptable"
  | 407 => "Proxy Authentication Required"
  | 408 => "Request Timeout"
  | 409 => "Conflict"
  | 410 => "Gone"
  | 411 => "Length Required"
  | 412 => "Precondition Failed"
  | 413 => "Request Entity Too Large"
  | 414 => "Request URI Too Long"
  | 415 => "Unsupported Media Type"
  | 416 => "Requested Range Not Satisfiable"
  | 417 => "Expectation Failed"
  | 418 => "I\x27m a teapot"
  | 421 => "Misdirected Request"
  | 422 => "Unprocessable Entity"
  | 423 => "Locked"
  | 424 => "Failed Dependency"
  | 425 => "Too Early"
  | 426 => "Upgrade Required"
  | 428 => "Precondition Required"
  | 429 => "Too Many Requests"
  | 431 => "Request Header Fields Too Large"
  | 451 => "Unavailable For Legal Reasons"
  | 500 => "Internal Server Error"
  | 501 => "Not Implemented"
  | 502 => "Bad Gateway"
  | 503 => "Service Unavailable"
  | 504 => "Gateway Timeout"
  | 505 => "HTTP Version Not Supported"
  | 506 => "Variant Also Negotiates"
  | 507 => "Insufficient Storage"
  | 508 => "Loop Detected"
  | 510 => "Not Extended"
  | 511 => "Network Authentication Required"
  | _ => ""

/-- Model of `unsuccessfulStatusError.Error`: the upstream status text if any,
otherwise the code followed by the standard reason phrase. -/
def unsuccessfulStatusErrorMessage (code : Nat) (text : String) : String :=
  if text ≠ "" then text
  else Nat.repr code ++ " " ++ statusText code

/-! ## The synthetic backend CONNECT (`backendReq`) -/

/-- The outgoing synthetic request written to a backend. -/
structure BackendRequest where
  method : String
  urlHost : String
  header : Header

/-- Model of `backendReq`: a CONNECT for the original target host, with every
client header copied, and Proxy-Authorization overwritten with the backend
URI's embedded credentials when (and only when) the URI carries some. -/
def backendReq (r : Request) (userinfo : Option Userinfo) : BackendRequest :=
  let h : Header := fun k => r.header k
  match userinfo with
  | none => { method := "CONNECT", urlHost := r.host, header := h }
  | some u =>
    { method := "CONNECT", urlHost := r.host,
      header := Header.set h "Proxy-Authorization"
        ("Basic " ++ base64Encode (stringBytes (Userinfo.string u))) }

/-! ## The tunnel relay (`pipe`) -/

/-- Model of the loop inside `io.Copy(dst, src)`: the source yields a sequence
of reads (chunks of bytes) ending in EOF or an error; each chunk is written to
the destination; the copy returns the concatenation delivered and the byte
count. -/
def ioCopy : List (List Nat) → List Nat × Nat
  | [] => ([], 0)
  | chunk :: rest => (chunk ++ (ioCopy rest).1, chunk.length + (ioCopy rest).2)

/-- Events of one directional copy goroutine of `pipe`. -/
inductive PipeEv where
  | writeBackend (bs : List Nat)
  | writeClient (bs : List Nat)
  | closeBackend
  | closeClient
deriving DecidableEq, Repr

/-- The action sequence of one copy goroutine: one write per chunk read, then
the deferred close of its destination connection. -/
def copyLoopTrace (wr : List Nat → PipeEv) (closeEv : PipeEv) : List (List Nat) → List PipeEv
  | [] => [closeEv]
  | chunk :: rest => wr chunk :: copyLoopTrace wr closeEv rest

/-- Result of `pipe(inbound, outbound)`: bytes delivered in each direction,
the two `io.Copy` byte counts, and the two goroutines' action sequences
(goroutine one copies the client connection into the backend connection and
closes the backend connection; goroutine two is symmetric). -/
structure PipeResult where
  toBackend : List Nat
  toClient : List Nat
  clientToBackendCount : Nat
  backendToClientCount : Nat
  clientToBackendEvents : List PipeEv
  backendToClientEvents : List PipeEv
deriving DecidableEq, Repr

/-- Model of `pipe`: the reads available on the client connection and on the
backend connection (each a chunk sequence ending at EOF, error, or the peer
loop closing the connection) are copied by the two goroutines. -/
def pipe (fromClient fromBackend : List (List Nat)) : PipeResult :=
  { toBackend := (ioCopy fromClient).1
    toClient := (ioCopy fromBackend).1
    clientToBackendCount := (ioCopy fromClient).2
    backendToClientCount := (ioCopy fromBackend).2
    clientToBackendEvents := copyLoopTrace PipeEv.writeBackend PipeEv.closeBackend fromClient
    backendToClientEvents := copyLoopTrace PipeEv.writeClient PipeEv.closeClient fromBackend }

/-- Modelled from the spec: the disconnect event (`OnTunnelClosed` in §6 of the
spec, the `OnDisconnect(read, wrote int64)` callback that proxy_test.go
exercises).  Its implementation is not among the source files — src/proxy.go
discards the two `io.Copy` counts — so, following §4.5/§6 of the spec, the
reported counters are modelled as the total bytes copied in each direction. -/
def onDisconnectReport (fromClient fromBackend : List (List Nat)) : Nat × Nat :=
  ((pipe fromClient fromBackend).clientToBackendCount,
    (pipe fromClient fromBackend).backendToClientCount)

/-! ## Concrete fixtures for witnesses and counterexamples -/

/-- A trial whose dial, write, response (200) all succeed. -/
def okTrialEnv : TrialEnv :=
  { parsed := some none, dialOk := true, writeOk := true, readResp := some ⟨200, "200 OK"⟩ }

/-- A trial whose dial fails. -/
def failDialEnv : TrialEnv :=
  { parsed := some none, dialOk := false, writeOk := true, readResp := none }

/-- A candidate that fully succeeds (TLS included). -/
def okCand : CandidateEnv :=
  { trial := okTrialEnv, tls := { aux := okTrialEnv, handshake := .ok } }

/-- A candidate whose dial fails. -/
def failCand : CandidateEnv :=
  { trial := failDialEnv, tls := { aux := okTrialEnv, handshake := .ok } }

/-- Every backend succeeds; the server supports hijacking. -/
def envAllOk : ConnectEnv :=
  { trials := fun _ => okCand, hijackerOk := true, hijackOk := true }

/-- Every backend fails to dial; the server supports hijacking. -/
def envAllFail : ConnectEnv :=
  { trials := fun _ => failCand, hijackerOk := true, hijackOk := true }

/-- Backend "b1" fails to dial, the others succeed. -/
def envC1 : ConnectEnv :=
  { trials := fun b => if b = "b1" then failCand else okCand,
    hijackerOk := true, hijackOk := true }

/-- Three literal backends, templates not enabled. -/
def pPlain : Proxy := { backends := ["b1", "b2", "b3"], parsedBackends := none, tlsHandshake := false }

/-- One literal backend, templates not enabled. -/
def proxyOneBk : Proxy := { backends := ["bk"], parsedBackends := none, tlsHandshake := false }

/-- No backends, templates not enabled. -/
def pEmpty : Proxy := { backends := [], parsedBackends := none, tlsHandshake := false }

/-- Templates enabled (with an empty template list). -/
def pTemplates : Proxy := { backends := [], parsedBackends := some [], tlsHandshake := false }

/-- A CONNECT request with no headers. -/
def rConnect : Request :=
  { method := "CONNECT", host := "origin.example:443", header := fun _ => [], bodyLen := 0 }

/-- A CONNECT request whose Proxy-Authorization payload is not valid base64. -/
def c3req : Request :=
  { method := "CONNECT", host := "origin.example:443",
    header := fun k => if k = "Proxy-Authorization" then ["Basic !!!!"] else [],
    bodyLen := 0 }

/-- A CONNECT request with a five-byte body. -/
def c8req : Request :=
  { method := "CONNECT", host := "origin.example:443", header := fun _ => [], bodyLen := 5 }

/-- Headers shared by the two C2 requests outside Proxy-Authorization. -/
def headerRest : Header :=
  fun k => if k = "User-Agent" then ["curl/8"] else []

/-- Client headers with Proxy-Authorization "Basic QQ==". -/
def headerA : Header :=
  fun k => if k = "Proxy-Authorization" then ["Basic QQ=="] else headerRest k

/-- Client headers with Proxy-Authorization "Basic Qg==". -/
def headerB : Header :=
  fun k => if k = "Proxy-Authorization" then ["Basic Qg=="] else headerRest k

/-- C2 request with the first credential. -/
def c2reqA : Request :=
  { method := "CONNECT", host := "origin.example:443", header := headerA, bodyLen := 0 }

/-- C2 request differing from `c2reqA` only in the Proxy-Authorization value. -/
def c2reqB : Request :=
  { method := "CONNECT", host := "origin.example:443", header := headerB, bodyLen := 0 }

/-- Embedded credentials of a backend URI. -/
def c2user : Userinfo := { username := "user", password := "pass", passwordSet := true }

/-- Template requiring `foo`, expanding to a URI that interpolates it. -/
def tFoo : Template :=
  { varnames := ["foo"], expand := fun v => (v "foo").map (fun s => "http://proxy-foo/" ++ s) }

/-- Template requiring both `foo` and `bar` (conjunctive). -/
def tFooBar : Template :=
  { varnames := ["foo", "bar"], expand := fun _ => some "http://proxy-foobar/" }

/-- Template requiring `baz` (absent from the C4 request). -/
def tBaz : Template :=
  { varnames := ["baz"], expand := fun _ => some "http://proxy-baz/" }

/-- Template whose expansion always fails. -/
def tBroken : Template :=
  { varnames := [], expand := fun _ => none }

/-- The template list of the C4 witness. -/
def tsC4 : List Template := [tFoo, tFooBar, tBaz, tBroken]

/-- Request whose Proxy-Authorization is "Basic " ++ base64("foo=1,bar"). -/
def rC4 : Request :=
  { method := "CONNECT", host := "origin.example:443",
    header := fun k => if k = "Proxy-Authorization" then ["Basic Zm9vPTEsYmFy"] else [],
    bodyLen := 0 }

/-- Templates-enabled proxy for the C4 witness. -/
def pC4 : Proxy := { backends := [], parsedBackends := some tsC4, tlsHandshake := false }

/-- The variable map a request resolves to (empty map on a params error). -/
def valuesOfReq (r : Request) : Values :=
  match params r with
  | .ok v => v
  | .error _ => valuesEmpty

/-- A trial that reaches a 503 response with empty status text. -/
def statusTrialEnv : TrialEnv :=
  { parsed := some none, dialOk := true, writeOk := true, readResp := some ⟨503, ""⟩ }

/-- Backend "bad" answers 503, the others succeed. -/
def envC5 : ConnectEnv :=
  { trials := fun b =>
      if b = "bad" then { trial := statusTrialEnv, tls := { aux := okTrialEnv, handshake := .ok } }
      else okCand,
    hijackerOk := true, hijackOk := true }

/-! ## Helper lemmas -/

theorem take_append_self {α : Type} (l₁ l₂ : List α) : (l₁ ++ l₂).take l₁.length = l₁ := by
  induction l₁ with
  | nil => rfl
  | cons a t ih => simp [ih]

theorem drop_append_self {α : Type} (l₁ l₂ : List α) : (l₁ ++ l₂).drop l₁.length = l₂ := by
  induction l₁ with
  | nil => rfl
  | cons a t ih => simp [ih]

theorem string_data_append (a b : String) : (a ++ b).data = a.data ++ b.data := by
  cases a; cases b; rfl

/-- The resolution loop of `applicableBackends` is a filterMap over the
template list: applicable templates contribute their expansion when it
succeeds, every other template contributes nothing, order is preserved. -/
theorem expandLoop_eq_filterMap (ts : List Template) (values : Values) :
    expandLoop ts values =
      ts.filterMap (fun t => if applicable t values then t.expand values else none) := by
  induction ts with
  | nil => rfl
  | cons t rest ih =>
    by_cases h : applicable t values
    · cases he : t.expand values with
      | none => simp [expandLoop, h, he, List.filterMap_cons, ih]
      | some b => simp [expandLoop, h, he, List.filterMap_cons, ih]
    · simp [expandLoop, h, List.filterMap_cons, ih]

/-- Prepending candidates that all fail their trial prepends the corresponding
failed attempts and leaves the remaining loop unchanged. -/
theorem connectLoop_append_errors (p : Proxy) (env : ConnectEnv) (fails rest : List String)
    (errOf : String → Err)
    (h : ∀ b ∈ fails, connectOne p (env.trials b) = .error (errOf b)) :
    connectLoop p env (fails ++ rest) =
      (fails.map (fun b => (b, some (errOf b))) ++ (connectLoop p env rest).1,
        (connectLoop p env rest).2) := by
  induction fails with
  | nil => rfl
  | cons b bs ih =>
    have hb := h b (by simp)
    have ht := ih (fun x hx => h x (by simp [hx]))
    simp [connectLoop, hb, ht]

/-- An exhausted loop (every candidate fails) answers 503. -/
theorem connectLoop_all_fail (p : Proxy) (env : ConnectEnv) (l : List String)
    (h : ∀ b ∈ l, ∃ e, connectOne p (env.trials b) = .error e) :
    (connectLoop p env l).2 = .httpError 503 := by
  induction l with
  | nil => rfl
  | cons b t ih =>
    obtain ⟨e, he⟩ := h b (by simp)
    simp [connectLoop, he, ih (fun x hx => h x (by simp [hx]))]

theorem ioCopy_eq (l : List (List Nat)) : ioCopy l = (l.flatten, l.flatten.length) := by
  induction l with
  | nil => rfl
  | cons c rest ih => simp [ioCopy, ih]

theorem copyLoopTrace_eq (wr : List Nat → PipeEv) (closeEv : PipeEv) (l : List (List Nat)) :
    copyLoopTrace wr closeEv l = l.map wr ++ [closeEv] := by
  induction l with
  | nil => rfl
  | cons c rest ih => simp [copyLoopTrace, ih]

/-! ## Claim theorems -/

/-- C10: if `EnableTemplates` has not been called successfully
(`parsedBackends` is nil), candidate resolution returns the configured
`Backends` slice unchanged, never errs, and does not consult the request (in
particular the Proxy-Authorization header is not parsed). -/
theorem applicableBackends_noTemplates (p : Proxy) (r r' : Request)
    (h : p.parsedBackends = none) :
    applicableBackends p r = .ok p.backends ∧
    applicableBackends p r = applicableBackends p r' := by
  constructor <;> simp [applicableBackends, h]

theorem applicableBackends_noTemplates_witness :
    pPlain.parsedBackends = none ∧
    applicableBackends pPlain rConnect = .ok ["b1", "b2", "b3"] ∧
    applicableBackends pPlain rConnect = applicableBackends pPlain c3req :=
  ⟨rfl, (applicableBackends_noTemplates pPlain rConnect c3req rfl).1,
    (applicableBackends_noTemplates pPlain rConnect c3req rfl).2⟩

/-- C6: a CONNECT request in which no candidate is accepted is answered 503
Service Unavailable; with an empty resolved candidate list the answer is 503
and no attempt callback fires at all. -/
theorem connect_noAccept (p : Proxy) (r : Request) (env : ConnectEnv) (bs : List String)
    (hres : applicableBackends p r = .ok bs)
    (hfail : ∀ b ∈ bs, ∃ e, connectOne p (env.trials b) = .error e) :
    (connect p r env).2 = .httpError 503 ∧
    (bs = [] → connect p r env = ([], .httpError 503)) := by
  constructor
  · unfold connect
    rw [hres]
    exact connectLoop_all_fail p env bs hfail
  · intro hbs
    subst hbs
    unfold connect
    rw [hres]
    rfl

theorem connect_noAccept_witness :
    (∀ b ∈ ["b1", "b2", "b3"], ∃ e, connectOne pPlain (envAllFail.trials b) = .error e) ∧
    (connect pPlain rConnect envAllFail).2 = .httpError 503 ∧
    connect pEmpty rConnect envAllFail = ([], .httpError 503) := by
  have h1 : ∀ b ∈ ["b1", "b2", "b3"], ∃ e, connectOne pPlain (envAllFail.trials b) = .error e :=
    fun b _ => ⟨.dial, rfl⟩
  refine ⟨h1, (connect_noAccept pPlain rConnect envAllFail ["b1", "b2", "b3"] rfl h1).1, ?_⟩
  exact (connect_noAccept pEmpty rConnect envAllFail [] rfl (by simp)).2 rfl

/-- C7: the TLS-handshake check passes when the handshake through the backend
succeeds or fails with a TLS record-header error (the target is not a TLS
server), fails on every other handshake error, and runs only after the
candidate passed the built-in 2xx status check: a candidate whose primary
`inbound` failed yields that error without the check's outcome ever
mattering. -/
theorem checkTLSHandshake_spec (aux : TrialEnv) (r' : GoResp)
    (haux : inboundResult aux = .ok r') :
    checkTLSHandshake { aux := aux, handshake := .ok } = none ∧
    checkTLSHandshake { aux := aux, handshake := .recordHeaderError } = none ∧
    checkTLSHandshake { aux := aux, handshake := .otherError } = some .handshake ∧
    (∀ (p : Proxy) (t : TrialEnv) (err : Err) (x y : TLSEnv),
      inboundResult t = .error err →
      connectOne p { trial := t, tls := x } = .error err ∧
      connectOne p { trial := t, tls := x } = connectOne p { trial := t, tls := y }) := by
  refine ⟨by simp [checkTLSHandshake, haux], by simp [checkTLSHandshake, haux],
    by simp [checkTLSHandshake, haux], ?_⟩
  intro p t err x y h
  constructor <;> simp [connectOne, h]

theorem checkTLSHandshake_spec_witness :
    inboundResult okTrialEnv = .ok ⟨200, "200 OK"⟩ ∧
    checkTLSHandshake { aux := okTrialEnv, handshake := .recordHeaderError } = none ∧
    checkTLSHandshake { aux := okTrialEnv, handshake := .otherError } = some .handshake ∧
    connectOne { backends := [], parsedBackends := none, tlsHandshake := true }
        { trial := failDialEnv, tls := { aux := okTrialEnv, handshake := .otherError } } =
      .error .dial := by
  have h := checkTLSHandshake_spec okTrialEnv ⟨200, "200 OK"⟩ rfl
  refine ⟨rfl, h.2.1, h.2.2.1, ?_⟩
  exact (h.2.2.2 { backends := [], parsedBackends := none, tlsHandshake := true }
    failDialEnv .dial { aux := okTrialEnv, handshake := .otherError }
    { aux := okTrialEnv, handshake := .ok } rfl).1

/-- C1: if candidate resolution yields `fails ++ winner :: rest` where every
candidate in `fails` fails its trial and `winner` succeeds, then the attempt
callback fires exactly once per tried candidate in list order — a non-nil
error for each failing candidate, nil for `winner` — no candidate of `rest`
is tried, and the accepted backend's response is what is written to the
client. -/
theorem connect_failover (p : Proxy) (r : Request) (env : ConnectEnv)
    (fails rest : List String) (winner : String)
    (errOf : String → Err) (resp : GoResp)
    (hres : applicableBackends p r = .ok (fails ++ winner :: rest))
    (hfail : ∀ b ∈ fails, connectOne p (env.trials b) = .error (errOf b))
    (hwin : connectOne p (env.trials winner) = .ok resp)
    (hhij : env.hijackerOk = true) (hhk : env.hijackOk = true) :
    connect p r env =
      (fails.map (fun b => (b, some (errOf b))) ++ [(winner, none)], .tunneled resp) := by
  unfold connect
  rw [hres]
  show connectLoop p env (fails ++ winner :: rest) = _
  rw [connectLoop_append_errors p env fails (winner :: rest) errOf hfail]
  simp [connectLoop, hwin, hhij, hhk]

theorem connect_failover_witness :
    applicableBackends pPlain rConnect = .ok (["b1"] ++ "b2" :: ["b3"]) ∧
    connectOne pPlain (envC1.trials "b1") = .error .dial ∧
    connectOne pPlain (envC1.trials "b2") = .ok ⟨200, "200 OK"⟩ ∧
    connect pPlain rConnect envC1 =
      ([("b1", some Err.dial), ("b2", none)], .tunneled ⟨200, "200 OK"⟩) := by
  refine ⟨rfl, rfl, rfl, ?_⟩
  have h := connect_failover pPlain rConnect envC1 ["b1"] ["b3"] "b2" (fun _ => .dial)
    ⟨200, "200 OK"⟩ rfl (by intro b hb; simp at hb; subst hb; rfl) rfl rfl rfl
  simpa using h

/-- C4: with templates enabled, a descriptor is eligible exactly when every
variable it references is present in the variable map (values, even empty
ones, are ignored; several variables are required conjunctively); the output
candidate list is the in-order filterMap of the eligible descriptors through
expansion; and a descriptor whose expansion fails is skipped alone — the
request resolution still succeeds, producing the same list as if that
descriptor were absent. -/
theorem applicableBackends_templates (p : Proxy) (r : Request)
    (ts : List Template) (values : Values)
    (hts : p.parsedBackends = some ts)
    (hv : params r = .ok values) :
    applicableBackends p r =
      .ok (ts.filterMap (fun t => if applicable t values then t.expand values else none)) ∧
    (∀ t, applicable t values = true ↔ ∀ n ∈ t.varnames, (values n).isSome) ∧
    (∀ pre t post, ts = pre ++ t :: post → t.expand values = none →
      applicableBackends p r =
        .ok ((pre ++ post).filterMap
          (fun t => if applicable t values then t.expand values else none))) := by
  have hmain : applicableBackends p r =
      .ok (ts.filterMap (fun t => if applicable t values then t.expand values else none)) := by
    unfold applicableBackends
    rw [hts, hv]
    show Except.ok (expandLoop ts values) = _
    rw [expandLoop_eq_filterMap]
  refine ⟨hmain, ?_, ?_⟩
  · intro t
    simp [applicable, List.all_eq_true]
  · intro pre t post hsplit hnone
    rw [hmain, hsplit]
    simp [List.filterMap_append, List.filterMap_cons, hnone]

theorem applicableBackends_templates_witness :
    pC4.parsedBackends = some tsC4 ∧
    params rC4 = .ok (valuesOfReq rC4) ∧
    applicableBackends pC4 rC4 = .ok ["http://proxy-foo/1", "http://proxy-foobar/"] ∧
    applicable tFoo (valuesOfReq rC4) = true ∧
    applicable tFooBar (valuesOfReq rC4) = true ∧
    applicable tBaz (valuesOfReq rC4) = false ∧
    (valuesOfReq rC4) "bar" = some "" ∧
    tBroken.expand (valuesOfReq rC4) = none ∧
    applicableBackends pC4 rC4 =
      .ok (([tFoo, tFooBar, tBaz]).filterMap
        (fun t => if applicable t (valuesOfReq rC4) then t.expand (valuesOfReq rC4) else none)) := by
  have h := applicableBackends_templates pC4 rC4 tsC4 (valuesOfReq rC4) rfl rfl
  refine ⟨rfl, rfl, ?_, rfl, rfl, rfl, rfl, rfl, ?_⟩
  · rw [h.1]; rfl
  · exact h.2.2 [tFoo, tFooBar, tBaz] tBroken [] rfl rfl

/-- C5: a backend CONNECT response with a status outside the interval from
200 to 299 makes `inbound` reject the trial with a structured status error
carrying that exact numeric code and the response's status text; the error's
message is the upstream status text when non-empty and otherwise the code
followed by the standard reason phrase; and the trial loop records the failed
attempt and proceeds to the next candidate. -/
theorem inbound_statusReject (e : TrialEnv) (ui : Option Userinfo) (resp : GoResp)
    (hp : e.parsed = some ui) (hd : e.dialOk = true) (hw : e.writeOk = true)
    (hr : e.readResp = some resp)
    (hst : ¬(200 ≤ resp.statusCode ∧ resp.statusCode < 300)) :
    inboundResult e = .error (.status resp.statusCode resp.status) ∧
    (resp.status = "" →
      unsuccessfulStatusErrorMessage resp.statusCode resp.status =
        Nat.repr resp.statusCode ++ " " ++ statusText resp.statusCode) ∧
    (resp.status ≠ "" →
      unsuccessfulStatusErrorMessage resp.statusCode resp.status = resp.status) ∧
    (∀ (p : Proxy) (env : ConnectEnv) (b : String) (bs : List String),
      (env.trials b).trial = e →
      connectLoop p env (b :: bs) =
        ((b, some (Err.status resp.statusCode resp.status)) :: (connectLoop p env bs).1,
          (connectLoop p env bs).2)) := by
  have hdiv : resp.statusCode / 100 ≠ 2 := by omega
  have hinb : inboundResult e = .error (.status resp.statusCode resp.status) := by
    simp [inboundResult, hp, hd, hw, hr, hdiv]
  refine ⟨hinb, ?_, ?_, ?_⟩
  · intro h0
    simp [unsuccessfulStatusErrorMessage, h0]
  · intro h0
    simp [unsuccessfulStatusErrorMessage, h0]
  · intro p env b bs htr
    have hco : connectOne p (env.trials b) = .error (.status resp.statusCode resp.status) := by
      simp [connectOne, htr, hinb]
    simp [connectLoop, hco]

theorem inbound_statusReject_witness :
    statusTrialEnv.readResp = some ⟨503, ""⟩ ∧
    ¬(200 ≤ 503 ∧ 503 < 300) ∧
    inboundResult statusTrialEnv = .error (.status 503 "") ∧
    unsuccessfulStatusErrorMessage 503 "" = "503 Service Unavailable" ∧
    connectLoop pPlain envC5 ["bad", "good"] =
      ([("bad", some (Err.status 503 "")), ("good", none)], .tunneled ⟨200, "200 OK"⟩) := by
  have h := inbound_statusReject statusTrialEnv none ⟨503, ""⟩ rfl rfl rfl rfl (by decide)
  refine ⟨rfl, by decide, h.1, h.2.1 rfl, ?_⟩
  rw [h.2.2.2 pPlain envC5 "bad" ["good"] rfl]
  rfl

/-- C2 counterexample: when the backend URI carries no embedded credentials,
`backendReq` copies the client's own Proxy-Authorization header to the backend
instead of omitting it, so two client requests differing only in that header
produce different synthetic CONNECTs. -/
theorem backendReq_forwardsClientAuth :
    (backendReq c2reqA none).header "Proxy-Authorization" = ["Basic QQ=="] ∧
    backendReq c2reqA none ≠ backendReq c2reqB none := by
  constructor
  · rfl
  · intro h
    have h2 : (backendReq c2reqA none).header "Proxy-Authorization" =
        (backendReq c2reqB none).header "Proxy-Authorization" := by rw [h]
    rw [show (backendReq c2reqA none).header "Proxy-Authorization" = ["Basic QQ=="] from rfl,
      show (backendReq c2reqB none).header "Proxy-Authorization" = ["Basic Qg=="] from rfl] at h2
    exact absurd h2 (by decide)

/-- C2 amended: the synthetic CONNECT carries the original target host and the
client's headers; when the backend URI embeds credentials, Proxy-Authorization
is replaced by Basic base64 of the URI's userinfo (so the client's own value
no longer influences the synthetic request); when the URI carries none, all
headers — the client's Proxy-Authorization included — are copied through
unchanged. -/
theorem backendReq_spec (r r' : Request) (u : Userinfo)
    (hhost : r'.host = r.host)
    (hrest : ∀ k, k ≠ "Proxy-Authorization" → r'.header k = r.header k) :
    (backendReq r none).method = "CONNECT" ∧
    (backendReq r none).urlHost = r.host ∧
    (∀ k, (backendReq r none).header k = r.header k) ∧
    (backendReq r (some u)).method = "CONNECT" ∧
    (backendReq r (some u)).urlHost = r.host ∧
    (backendReq r (some u)).header "Proxy-Authorization" =
      ["Basic " ++ base64Encode (stringBytes (Userinfo.string u))] ∧
    (∀ k, k ≠ "Proxy-Authorization" → (backendReq r (some u)).header k = r.header k) ∧
    backendReq r' (some u) = backendReq r (some u) := by
  refine ⟨rfl, rfl, fun k => rfl, rfl, rfl, ?_, ?_, ?_⟩
  · simp [backendReq, Header.set]
  · intro k hk
    simp [backendReq, Header.set, hk]
  · show BackendRequest.mk "CONNECT" r'.host _ = BackendRequest.mk "CONNECT" r.host _
    rw [hhost]
    have hh : Header.set (fun k => r'.header k) "Proxy-Authorization"
        ("Basic " ++ base64Encode (stringBytes (Userinfo.string u))) =
        Header.set (fun k => r.header k) "Proxy-Authorization"
        ("Basic " ++ base64Encode (stringBytes (Userinfo.string u))) := by
      funext k
      by_cases hk : k = "Proxy-Authorization"
      · simp [Header.set, hk]
      · simp [Header.set, hk, hrest k hk]
    rw [hh]

theorem backendReq_spec_witness :
    c2reqB.host = c2reqA.host ∧
    ("Basic " ++ base64Encode (stringBytes (Userinfo.string c2user))) = "Basic dXNlcjpwYXNz" ∧
    (backendReq c2reqA (some c2user)).header "Proxy-Authorization" =
      ["Basic " ++ base64Encode (stringBytes (Userinfo.string c2user))] ∧
    backendReq c2reqB (some c2user) = backendReq c2reqA (some c2user) := by
  have hrest : ∀ k, k ≠ "Proxy-Authorization" → c2reqB.header k = c2reqA.header k := by
    intro k hk
    simp [c2reqA, c2reqB, headerA, headerB, hk]
  have h := backendReq_spec c2reqA c2reqB c2user rfl hrest
  exact ⟨rfl, by decide, h.2.2.2.2.2.1, h.2.2.2.2.2.2.2⟩

/-- C3 counterexample: without templates enabled, a CONNECT whose
Proxy-Authorization is "Basic " followed by invalid base64 is not answered
400: the header is never parsed, the trial loop runs and here accepts the
first backend. -/
theorem connect_badBase64_counterexample :
    Header.get c3req.header "Proxy-Authorization" = "Basic " ++ "!!!!" ∧
    base64DecodeChars "!!!!".data = none ∧
    connect proxyOneBk c3req envAllOk = ([("bk", none)], .tunneled ⟨200, "200 OK"⟩) ∧
    connect proxyOneBk c3req envAllOk ≠ ([], .httpError 400) := by
  refine ⟨by decide, rfl, rfl, ?_⟩
  rw [show connect proxyOneBk c3req envAllOk =
    ([("bk", none)], .tunneled ⟨200, "200 OK"⟩) from rfl]
  decide

/-- C3 amended: with templates enabled, a CONNECT request whose
Proxy-Authorization header is "Basic " followed by a payload that is not valid
base64 is answered 400 Bad Request with zero backend trials, whatever the
configured template list and whatever the trial environment; without
templates the header is not parsed at all (see the counterexample). -/
theorem connect_badBase64 (p : Proxy) (r : Request) (env : ConnectEnv)
    (ts : List Template) (payload : String)
    (hts : p.parsedBackends = some ts)
    (hauth : Header.get r.header "Proxy-Authorization" = "Basic " ++ payload)
    (hbad : base64DecodeChars payload.data = none) :
    connect p r env = ([], .httpError 400) := by
  have hdata : (Header.get r.header "Proxy-Authorization").data =
      basicPrefixChars ++ payload.data := by
    rw [hauth, string_data_append]
    rfl
  have hparams : params r = .error () := by
    unfold params
    rw [hdata]
    rw [if_neg (by simp [basicPrefixChars])]
    rw [take_append_self, drop_append_self]
    rw [if_pos (by decide)]
    rw [hbad]
  unfold connect applicableBackends
  rw [hts, hparams]

theorem connect_badBase64_witness :
    pTemplates.parsedBackends = some [] ∧
    Header.get c3req.header "Proxy-Authorization" = "Basic " ++ "!!!!" ∧
    base64DecodeChars "!!!!".data = none ∧
    connect pTemplates c3req envAllOk = ([], .httpError 400) :=
  ⟨rfl, by decide, rfl,
    connect_badBase64 pTemplates c3req envAllOk [] "!!!!" rfl (by decide) rfl⟩

/-- C8 counterexample: a CONNECT request with a non-empty body is served with
the body closed but never read: no drain event exists in the run's trace, so
the body is not "fully drained" before the trial. -/
theorem serveHTTP_neverDrains :
    c8req.bodyLen = 5 ∧
    serveHTTPTrace proxyOneBk c8req envAllOk =
      [.bodyClose, .trial "bk", .respond (.tunneled ⟨200, "200 OK"⟩)] ∧
    Ev.bodyRead ∉ serveHTTPTrace proxyOneBk c8req envAllOk := by
  refine ⟨rfl, rfl, ?_⟩
  rw [show serveHTTPTrace proxyOneBk c8req envAllOk =
    [.bodyClose, .trial "bk", .respond (.tunneled ⟨200, "200 OK"⟩)] from rfl]
  decide

/-- C8 amended: on every request (CONNECT or not) and every outcome, the
request body is closed exactly once, before any backend trial begins; it is
closed without being drained — the trace never contains a body read. -/
theorem serveHTTP_bodyCloseOnce (p : Proxy) (r : Request) (env : ConnectEnv) :
    (serveHTTPTrace p r env).head? = some Ev.bodyClose ∧
    (serveHTTPTrace p r env).count Ev.bodyClose = 1 ∧
    Ev.bodyRead ∉ serveHTTPTrace p r env := by
  refine ⟨rfl, ?_, ?_⟩
  · have h1 : ((serveHTTP p r env).1.map (fun a => Ev.trial a.1)).count Ev.bodyClose = 0 := by
      simp [List.count_eq_zero]
    simp [serveHTTPTrace, List.count_cons, List.count_append, h1]
  · simp [serveHTTPTrace]

/-- C9: after establishment each direction of the tunnel delivers the bytes
read from its source connection unmodified and in order (the concatenation of
the chunks io.Copy reads until that side ends), each copy loop closes its
destination connection after its last write (which is what forces the
opposite loop to terminate), and the byte counters reported on disconnect
equal the bytes actually transferred in each direction. -/
theorem pipe_relay (fromClient fromBackend : List (List Nat)) :
    (pipe fromClient fromBackend).toBackend = fromClient.flatten ∧
    (pipe fromClient fromBackend).toClient = fromBackend.flatten ∧
    onDisconnectReport fromClient fromBackend =
      (fromClient.flatten.length, fromBackend.flatten.length) ∧
    (pipe fromClient fromBackend).clientToBackendEvents =
      fromClient.map PipeEv.writeBackend ++ [PipeEv.closeBackend] ∧
    (pipe fromClient fromBackend).backendToClientEvents =
      fromBackend.map PipeEv.writeClient ++ [PipeEv.closeClient] := by
  refine ⟨?_, ?_, ?_, ?_, ?_⟩ <;>
    simp [pipe, onDisconnectReport, ioCopy_eq, copyLoopTrace_eq]

end HPF
